import Mathlib

/-!
Verification of the hybrid estimate-reconciliation and growth-calculation
engine of the stock-insights-api repository.

The Python source is shallowly embedded as follows.

* Report dates: the source stores ISO date strings (YYYY-MM-DD) and compares
  them lexicographically, which for well-formed zero-padded strings is exactly
  chronological order.  We encode a date as the natural number
  year * 10000 + month * 100 + day, so that string comparison corresponds to
  numeric comparison, `int(date.split('-')[0])` is `d / 10000` and
  `int(date.split('-')[1])` is `d / 100 % 100`.
* Quarterly records (dict-shaped rows from the data provider) become the
  structure `DRec`; a Python `row.get(key, 0)` becomes `getNum` on an
  `Option ℚ` field (`none` models an absent key or a JSON null).
* Python floats become `ℚ`.  `round(x, n)` is modelled by `pyRound n`,
  Python's documented round-half-to-even on exact values.
* Python's stable `sort`/`sorted` is modelled by `List.insertionSort`, which
  is also stable, so both produce the same list for a given key; sorting with
  key reversal uses the flipped relation, matching the stability semantics of
  `reverse=True`.
* Functions that read the wall clock (`datetime.now()`) take the current
  year/month, or the already-computed `quarters_elapsed`, as explicit
  parameters; functions that fetch records over HTTP take the fetched record
  lists as parameters.
* `MetricResult.failure(msg)` carries a human-readable message in the source;
  the message text is irrelevant to every property below and is elided.
-/

/-- A dated quarterly record (an entry of the dict-shaped lists handled by
`src/services/metrics_calculator.py` and `src/scripts/current-year-calcs.py`).
`date` is the yyyymmdd encoding of the `date` field; the numeric fields are
`none` when the corresponding key is absent. -/
structure DRec where
  date : ℕ
  eps : Option ℚ := none
  revenue : Option ℚ := none
  netIncome : Option ℚ := none
  estimatedEpsAvg : Option ℚ := none
  estimatedRevenueAvg : Option ℚ := none
deriving DecidableEq, Repr

/-- Python `row.get(key, 0)`: an absent value counts as zero. -/
def getNum (o : Option ℚ) : ℚ := o.getD 0

/-- Year component of an encoded date (`int(date_str.split('-')[0])`). -/
def yearOf (d : ℕ) : ℕ := d / 10000

/-- Month component of an encoded date (`int(date_str.split('-')[1])`). -/
def monthOf (d : ℕ) : ℕ := d / 100 % 100

/-- The `MetricResult` tagged union of
`src/services/models/metric_models.py`: `success value` is a result with
`calculation_successful = True`, `failure` one with
`calculation_successful = False` (the error message is elided). -/
inductive MetricResult where
  | success (value : ℚ)
  | failure
deriving DecidableEq, Repr

/-- Whether a `MetricResult` is a success (`calculation_successful`). -/
def MetricResult.isSuccess : MetricResult → Bool
  | .success _ => true
  | .failure => false

/-- A dynamically-typed Python value as seen by `_is_positive_number`:
`None`, a numeric value, or a value `float()` cannot convert. -/
inductive PyVal where
  | pyNone
  | pyNum (q : ℚ)
  | pyNonNum
deriving DecidableEq, Repr

/-- The method `MetricsCalculator._is_positive_number`
(src/services/metrics_calculator.py:904-909): `value is not None and
float(value) > 0`, with conversion errors caught and mapped to `False`. -/
def is_positive_number : PyVal → Bool
  | .pyNum q => decide (0 < q)
  | _ => false

/-- Round-half-to-even of a rational to an integer, the rounding Python's
builtin `round` performs on exact values. -/
def halfEvenRound (q : ℚ) : ℤ :=
  let n := ⌊q⌋
  if q - n < 1/2 then n
  else if (1/2 : ℚ) < q - n then n + 1
  else if n % 2 = 0 then n else n + 1

/-- Python `round(q, nd)`. -/
def pyRound (nd : ℕ) (q : ℚ) : ℚ := (halfEvenRound (q * 10 ^ nd) : ℚ) / 10 ^ nd

/-- The method `MetricsCalculator._calculate_growth_percentage`
(src/services/metrics_calculator.py:269-280): `None` when the previous value
is zero, else `((current - previous) / abs(previous)) * 100`. -/
def calculate_growth_percentage (current previous : ℚ) : Option ℚ :=
  if previous = 0 then Option.none
  else Option.some ((current - previous) / |previous| * 100)

/-- The method `MetricsCalculator._calculate_growth_rate`
(src/services/metrics_calculator.py:254-267): fails unless both values pass
`_is_positive_number`, then rounds `_calculate_growth_percentage` to
`GROWTH_PRECISION = 2` decimals. -/
def mc_calculate_growth_rate (current previous : PyVal) : MetricResult :=
  if is_positive_number current then
    if is_positive_number previous then
      match current, previous with
      | .pyNum c, .pyNum p =>
        match calculate_growth_percentage c p with
        | Option.none => .failure
        | Option.some g => .success (pyRound 2 g)
      | _, _ => .failure
    else .failure
  else .failure

/-- The method `MetricsCalculator._calculate_pe_ratio`
(src/services/metrics_calculator.py:173-182): fails unless price and EPS pass
`_is_positive_number`, then `round(price / eps, RATIO_PRECISION = 4)`. -/
def mc_calculate_pe (price eps : PyVal) : MetricResult :=
  if is_positive_number price then
    if is_positive_number eps then
      match price, eps with
      | .pyNum p, .pyNum e => .success (pyRound 4 (p / e))
      | _, _ => .failure
    else .failure
  else .failure

/-- The script function `CurrentYearFinancialCalculator.calculate_growth_rate`
(src/scripts/current-year-calcs.py:615-619): a bare float, `0` when the prior
value is zero, else `((current - prior) / abs(prior)) * 100` (no rounding,
no failure channel). -/
def script_calculate_growth_rate (current prior : ℚ) : ℚ :=
  if prior = 0 then 0
  else (current - prior) / |prior| * 100

/-- The script function
`CurrentYearFinancialCalculator.get_quarters_elapsed_in_year`
(src/scripts/current-year-calcs.py:56-77), with the wall clock
(`datetime.now()`) passed in as `current_year`/`current_month`. -/
def get_quarters_elapsed_in_year (target current_year current_month : ℕ) : ℕ :=
  if current_year < target then 0
  else if target < current_year then 4
  else
    if current_month ≤ 3 then 0
    else if current_month ≤ 6 then 1
    else if current_month ≤ 9 then 2
    else 3

/-- The method `MetricsCalculator._get_quarters_elapsed_in_year`
(src/services/metrics_calculator.py:580-607), wall clock passed in.  Unlike
the script version it returns 2 (not 3) for months 10-12 of the current
year. -/
def mc_get_quarters_elapsed_in_year (target current_year current_month : ℕ) : ℕ :=
  if current_year < target then 0
  else if target < current_year then 4
  else
    if current_month ≤ 3 then 0
    else if current_month ≤ 6 then 1
    else if current_month ≤ 9 then 2
    else 2

/-- The method `FMPService._date_to_quarter`
(src/services/fmp_service.py:868-890) as a (year, quarter) pair: standard
calendar quarters, `"2025 Q1"` rendered as `(2025, 1)`. -/
def fmp_date_to_quarter (d : ℕ) : ℕ × ℕ :=
  let m := monthOf d
  (yearOf d, if m ≤ 3 then 1 else if m ≤ 6 then 2 else if m ≤ 9 then 3 else 4)

/-- The script function `parse_quarter_from_date`
(src/scripts/eps-ttm.py:75-102): fiscal (year, quarter) with the Jan-Mar
continuation rule, `none` for an unmappable month. -/
def parse_quarter_from_date (d : ℕ) : Option (ℕ × ℕ) :=
  let y := yearOf d
  let m := monthOf d
  if m = 1 ∨ m = 2 ∨ m = 3 ∨ m = 4 then
    if m = 1 ∨ m = 2 ∨ m = 3 then Option.some (y - 1, 4) else Option.some (y, 1)
  else if m = 5 ∨ m = 6 ∨ m = 7 then Option.some (y, 2)
  else if m = 8 ∨ m = 9 ∨ m = 10 then Option.some (y, 3)
  else if m = 11 ∨ m = 12 then Option.some (y, 4)
  else Option.none

/-- Ascending report-date order (the key function of Python
`filtered.sort(key=lambda x: x['date'])`). -/
def byDateAsc (a b : DRec) : Prop := a.date ≤ b.date

/-- Descending report-date order (`sort(key=..., reverse=True)`). -/
def byDateDesc (a b : DRec) : Prop := b.date ≤ a.date

instance : DecidableRel byDateAsc := fun a b => inferInstanceAs (Decidable (a.date ≤ b.date))

instance : DecidableRel byDateDesc := fun a b => inferInstanceAs (Decidable (b.date ≤ a.date))

instance : IsTotal DRec byDateAsc := ⟨fun a b => Nat.le_total a.date b.date⟩

instance : IsTotal DRec byDateDesc := ⟨fun a b => Nat.le_total b.date a.date⟩

instance : IsTrans DRec byDateAsc := ⟨fun _ _ _ h h' => Nat.le_trans h h'⟩

instance : IsTrans DRec byDateDesc := ⟨fun _ _ _ h h' => Nat.le_trans h' h⟩

/-- Python's stable sort by date, descending (most recent first). -/
def sortByDateDesc (l : List DRec) : List DRec := List.insertionSort byDateDesc l

/-- Python's stable sort by date, ascending (chronological). -/
def sortByDateAsc (l : List DRec) : List DRec := List.insertionSort byDateAsc l

/-- Python `list.sort()` on a list of floats, ascending. -/
def sortAsc (l : List ℚ) : List ℚ := List.insertionSort (· ≤ ·) l

/-- The month-to-fiscal-quarter bucketing inside `filter_data_by_fiscal_year`
(src/scripts/current-year-calcs.py:139-181 and the identical
`MetricsCalculator._filter_data_by_fiscal_year`,
src/services/metrics_calculator.py:425-464): months 1-4 of the target year
are Q1, 5-7 Q2, 8-10 Q3, 11-12 Q4, and months 1-3 of the following calendar
year continue Q4; every other record maps to no quarter. -/
def fiscalQuarterOf (target : ℕ) (r : DRec) : Option ℕ :=
  let y := yearOf r.date
  let m := monthOf r.date
  if y = target then
    if m = 1 ∨ m = 2 ∨ m = 3 ∨ m = 4 then Option.some 1
    else if m = 5 ∨ m = 6 ∨ m = 7 then Option.some 2
    else if m = 8 ∨ m = 9 ∨ m = 10 then Option.some 3
    else if m = 11 ∨ m = 12 then Option.some 4
    else Option.none
  else if y = target + 1 then
    if m = 1 ∨ m = 2 ∨ m = 3 then Option.some 4 else Option.none
  else Option.none

/-- The per-bucket selection inside `filter_data_by_fiscal_year`: collect the
records mapped to quarter `q` (in input order), stable-sort them by date
descending, and keep the first — the most recent — if the bucket is
non-empty. -/
def pickQuarter (data : List DRec) (target q : ℕ) : Option DRec :=
  (sortByDateDesc (data.filter
    (fun r => decide (fiscalQuarterOf target r = Option.some q)))).head?

/-- The fiscal-year quarter selector `filter_data_by_fiscal_year`
(src/scripts/current-year-calcs.py:139-181; the method
`MetricsCalculator._filter_data_by_fiscal_year` is the same code): bucket the
records by `fiscalQuarterOf`, keep the most recent record of each non-empty
bucket, collect buckets Q1..Q4, and return the kept records sorted
chronologically. -/
def filter_data_by_fiscal_year (data : List DRec) (target : ℕ) : List DRec :=
  sortByDateAsc (([1, 2, 3, 4] : List ℕ).filterMap (pickQuarter data target))

/-- The latest four actual quarters: `sorted(..., reverse=True)[:4]`, the
shared prelude of the three reconciliation-factor calculations. -/
def latest4 (actual : List DRec) : List DRec := (sortByDateDesc actual).take 4

/-- Linear scan for the estimate record whose report date matches exactly
(the `for est_quarter in estimates_data: if est_quarter['date'] == actual_date`
loop with `break`). -/
def findEstimateFor (estimates : List DRec) (d : ℕ) : Option DRec :=
  estimates.find? (fun m => decide (m.date = d))

/-- The per-quarter absolute differences accumulated by
`calculate_gaap_estimate_difference` (src/scripts/current-year-calcs.py:244-287):
for each of the latest 4 actual quarters with a date-matched estimate, when
both EPS values are non-zero, `abs(estimated - actual)`. -/
def pairedDiffs (actual estimates : List DRec) : List ℚ :=
  (latest4 actual).filterMap (fun q =>
    match findEstimateFor estimates q.date with
    | Option.some m =>
      if getNum q.eps ≠ 0 then
        if getNum m.estimatedEpsAvg ≠ 0 then
          Option.some |getNum m.estimatedEpsAvg - getNum q.eps|
        else Option.none
      else Option.none
    | Option.none => Option.none)

/-- The script function `calculate_gaap_estimate_difference`
(src/scripts/current-year-calcs.py:244-287): mean of `pairedDiffs`, `0.0`
when no valid pairs exist. -/
def calculate_gaap_estimate_difference (actual estimates : List DRec) : ℚ :=
  let ds := pairedDiffs actual estimates
  if ds = [] then 0 else ds.sum / ds.length

/-- The per-quarter actual/estimate EPS ratios accumulated by
`calculate_gaap_estimate_ratio` and `calculate_gaap_estimate_median_ratio`
(src/scripts/current-year-calcs.py:338-381 and 432-502; also the method
`MetricsCalculator._calculate_gaap_estimate_median_ratio`,
src/services/metrics_calculator.py:609-658): for each of the latest 4 actual
quarters with a date-matched estimate, when both EPS values are strictly
positive, `actual / estimated`. -/
def pairedRatios (actual estimates : List DRec) : List ℚ :=
  (latest4 actual).filterMap (fun q =>
    match findEstimateFor estimates q.date with
    | Option.some m =>
      if 0 < getNum q.eps then
        if 0 < getNum m.estimatedEpsAvg then
          Option.some (getNum q.eps / getNum m.estimatedEpsAvg)
        else Option.none
      else Option.none
    | Option.none => Option.none)

/-- The script function `calculate_gaap_estimate_ratio`
(src/scripts/current-year-calcs.py:338-381): mean of `pairedRatios`, `1.0`
when no valid pairs exist. -/
def calculate_gaap_estimate_ratio_factor (actual estimates : List DRec) : ℚ :=
  let rs := pairedRatios actual estimates
  if rs = [] then 1 else rs.sum / rs.length

/-- The median-ratio reconciliation factor
`calculate_gaap_estimate_median_ratio` (src/scripts/current-year-calcs.py:432-502)
and `MetricsCalculator._calculate_gaap_estimate_median_ratio`
(src/services/metrics_calculator.py:609-658): sort the ratios ascending and
take the middle element (odd count) or the mean of the two middle elements
(even count); `1.0` when no valid pairs exist. -/
def calculate_gaap_estimate_median_factor (actual estimates : List DRec) : ℚ :=
  let rs := pairedRatios actual estimates
  if rs = [] then 1
  else
    let s := sortAsc rs
    let n := s.length
    if n % 2 = 0 then (s.getD (n / 2 - 1) 0 + s.getD (n / 2) 0) / 2
    else s.getD (n / 2) 0

/-- Modelled from the spec's wording for the shared reconciliation prelude:
the (actual EPS, estimated EPS) pairs formed by date-matching the 4 most
recent actual quarters against the estimate records. -/
def specPairs (actual estimates : List DRec) : List (ℚ × ℚ) :=
  (latest4 actual).filterMap (fun q =>
    (findEstimateFor estimates q.date).map (fun m => (getNum q.eps, getNum m.estimatedEpsAvg)))

/-- Modelled from the spec's wording of the absolute-difference variant:
keep the pairs where both values are non-zero, take `abs(actual - estimated)`
of each, and average (0.0 for an empty list). -/
def absDiffFactorSpec (actual estimates : List DRec) : ℚ :=
  let ds := ((specPairs actual estimates).filter
    (fun p => decide (p.1 ≠ 0 ∧ p.2 ≠ 0))).map (fun p => |p.1 - p.2|)
  if ds = [] then 0 else ds.sum / ds.length

/-- Modelled from the spec's wording of the median-ratio variant: keep the
pairs where both values are strictly positive, form `actual / estimated`,
and take the standard median (mean of the two middle elements of the sorted
list for an even count, middle element for odd), defaulting to 1.0. -/
def medianRatioFactorSpec (actual estimates : List DRec) : ℚ :=
  let rs := ((specPairs actual estimates).filter
    (fun p => decide (0 < p.1 ∧ 0 < p.2))).map (fun p => p.1 / p.2)
  if rs = [] then 1
  else
    let s := sortAsc rs
    let n := s.length
    if n % 2 = 0 then (s.getD (n / 2 - 1) 0 + s.getD (n / 2) 0) / 2
    else s.getD (n / 2) 0

/-- Actual EPS of the i-th selected quarter (`actual_quarters[i].get('eps', 0)`,
0 when there is no i-th record). -/
def actualEpsAt (a : List DRec) (i : ℕ) : ℚ :=
  match a[i]? with
  | Option.some q => getNum q.eps
  | Option.none => 0

/-- Actual revenue of the i-th selected quarter. -/
def actualRevAt (a : List DRec) (i : ℕ) : ℚ :=
  match a[i]? with
  | Option.some q => getNum q.revenue
  | Option.none => 0

/-- Estimated EPS of the i-th selected estimate quarter
(`estimate_quarters[i].get('estimatedEpsAvg', 0)`). -/
def estEpsAt (e : List DRec) (i : ℕ) : ℚ :=
  match e[i]? with
  | Option.some q => getNum q.estimatedEpsAvg
  | Option.none => 0

/-- Estimated revenue of the i-th selected estimate quarter. -/
def estRevAt (e : List DRec) (i : ℕ) : ℚ :=
  match e[i]? with
  | Option.some q => getNum q.estimatedRevenueAvg
  | Option.none => 0

/-- Sum of a per-quarter (eps, revenue) contribution over the four quarters,
the unrolling of the `for i in range(4)` accumulation loops. -/
def sum4 (f : ℕ → ℚ × ℚ) : ℚ × ℚ := f 0 + f 1 + f 2 + f 3

/-- Scalar variant of `sum4`. -/
def sum4q (f : ℕ → ℚ) : ℚ := f 0 + f 1 + f 2 + f 3

/-- The elapsed-quarter branch shared by `get_hybrid_current_year_data`,
`get_gaap_adjusted_hybrid_data` and `get_ratio_adjusted_hybrid_data`
(src/scripts/current-year-calcs.py): use the i-th actual quarter, falling
back to the raw i-th estimate quarter when the actual is missing. -/
def actualOrFallback (a e : List DRec) (i : ℕ) : ℚ × ℚ :=
  match a[i]? with
  | Option.some q => (getNum q.eps, getNum q.revenue)
  | Option.none =>
    match e[i]? with
    | Option.some q => (getNum q.estimatedEpsAvg, getNum q.estimatedRevenueAvg)
    | Option.none => (0, 0)

/-- One iteration of the `get_hybrid_current_year_data` loop
(src/scripts/current-year-calcs.py:207-242). -/
def hybridContrib (qe : ℕ) (a e : List DRec) (i : ℕ) : ℚ × ℚ :=
  if i < qe then actualOrFallback a e i
  else
    match e[i]? with
    | Option.some q => (getNum q.estimatedEpsAvg, getNum q.estimatedRevenueAvg)
    | Option.none => (0, 0)

/-- The (eps, revenue) totals of `get_hybrid_current_year_data`
(src/scripts/current-year-calcs.py:207-242), on the already-filtered quarter
sequences and with `quarters_elapsed` passed in. -/
def get_hybrid_current_year_quarters (qe : ℕ) (a e : List DRec) : ℚ × ℚ :=
  sum4 (hybridContrib qe a e)

/-- The script function `get_hybrid_current_year_data` end to end: filter
both record sets by fiscal year, then run the hybrid loop (the source
obtains `qe` from `get_quarters_elapsed_in_year` and the record lists from
the data fetchers). -/
def get_hybrid_current_year_data (qe : ℕ) (actual_data estimates_data : List DRec)
    (target : ℕ) : ℚ × ℚ :=
  get_hybrid_current_year_quarters qe
    (filter_data_by_fiscal_year actual_data target)
    (filter_data_by_fiscal_year estimates_data target)

/-- One iteration of the `get_gaap_adjusted_hybrid_data` loop
(src/scripts/current-year-calcs.py:289-336): elapsed quarters as in the
hybrid loop; remaining quarters use `estimatedEpsAvg - factor` for EPS and
the unadjusted estimated revenue. -/
def gaapContrib (qe : ℕ) (a e : List DRec) (f : ℚ) (i : ℕ) : ℚ × ℚ :=
  if i < qe then actualOrFallback a e i
  else
    match e[i]? with
    | Option.some q => (getNum q.estimatedEpsAvg - f, getNum q.estimatedRevenueAvg)
    | Option.none => (0, 0)

/-- The (eps, revenue) totals of `get_gaap_adjusted_hybrid_data` on filtered
quarter sequences, factor passed in. -/
def get_gaap_adjusted_hybrid_quarters (qe : ℕ) (a e : List DRec) (f : ℚ) : ℚ × ℚ :=
  sum4 (gaapContrib qe a e f)

/-- The script function `get_gaap_adjusted_hybrid_data` end to end, with the
factor computed by `calculate_gaap_estimate_difference` from the full record
sets exactly as in the source. -/
def get_gaap_adjusted_hybrid_data (qe : ℕ) (actual_data estimates_data : List DRec)
    (target : ℕ) : ℚ × ℚ :=
  get_gaap_adjusted_hybrid_quarters qe
    (filter_data_by_fiscal_year actual_data target)
    (filter_data_by_fiscal_year estimates_data target)
    (calculate_gaap_estimate_difference actual_data estimates_data)

/-- One iteration of the `get_ratio_adjusted_hybrid_data` loop
(src/scripts/current-year-calcs.py:383-430): remaining quarters use
`estimatedEpsAvg * factor` for EPS, revenue unadjusted. -/
def ratioContrib (qe : ℕ) (a e : List DRec) (f : ℚ) (i : ℕ) : ℚ × ℚ :=
  if i < qe then actualOrFallback a e i
  else
    match e[i]? with
    | Option.some q => (getNum q.estimatedEpsAvg * f, getNum q.estimatedRevenueAvg)
    | Option.none => (0, 0)

/-- The (eps, revenue) totals of `get_ratio_adjusted_hybrid_data` on filtered
quarter sequences, factor passed in. -/
def get_ratio_adjusted_hybrid_quarters (qe : ℕ) (a e : List DRec) (f : ℚ) : ℚ × ℚ :=
  sum4 (ratioContrib qe a e f)

/-- The script function `get_ratio_adjusted_hybrid_data` end to end, factor
computed by `calculate_gaap_estimate_ratio`. -/
def get_ratio_adjusted_hybrid_data (qe : ℕ) (actual_data estimates_data : List DRec)
    (target : ℕ) : ℚ × ℚ :=
  get_ratio_adjusted_hybrid_quarters qe
    (filter_data_by_fiscal_year actual_data target)
    (filter_data_by_fiscal_year estimates_data target)
    (calculate_gaap_estimate_ratio_factor actual_data estimates_data)

/-- One iteration of the `get_median_adjusted_hybrid_data` loop
(src/scripts/current-year-calcs.py:504-566): the i-th actual quarter when
`i < quarters_elapsed and i < len(actual_quarters)` (no estimate fallback);
otherwise `estimatedEpsAvg * factor` for EPS and unadjusted estimated
revenue (nothing when no i-th estimate exists). -/
def medianContrib (qe : ℕ) (a e : List DRec) (f : ℚ) (i : ℕ) : ℚ × ℚ :=
  if i < qe ∧ i < a.length then
    match a[i]? with
    | Option.some q => (getNum q.eps, getNum q.revenue)
    | Option.none => (0, 0)
  else
    match e[i]? with
    | Option.some q => (getNum q.estimatedEpsAvg * f, getNum q.estimatedRevenueAvg)
    | Option.none => (0, 0)

/-- The (eps, revenue) totals of the script `get_median_adjusted_hybrid_data`
loop on filtered quarter sequences, factor passed in. -/
def get_median_adjusted_hybrid_quarters (qe : ℕ) (a e : List DRec) (f : ℚ) : ℚ × ℚ :=
  sum4 (medianContrib qe a e f)

/-- The script function `get_median_adjusted_hybrid_data` end to end, factor
computed by `calculate_gaap_estimate_median_ratio`. -/
def get_median_adjusted_hybrid_data (qe : ℕ) (actual_data estimates_data : List DRec)
    (target : ℕ) : ℚ × ℚ :=
  get_median_adjusted_hybrid_quarters qe
    (filter_data_by_fiscal_year actual_data target)
    (filter_data_by_fiscal_year estimates_data target)
    (calculate_gaap_estimate_median_factor actual_data estimates_data)

/-- One iteration of the EPS loop of
`MetricsCalculator._get_median_adjusted_hybrid_current_year_eps`
(src/services/metrics_calculator.py:660-702), identical in structure to the
script median loop but accumulating EPS only. -/
def mcMedianEpsContrib (qe : ℕ) (a e : List DRec) (f : ℚ) (i : ℕ) : ℚ :=
  if i < qe ∧ i < a.length then actualEpsAt a i
  else
    match e[i]? with
    | Option.some q => getNum q.estimatedEpsAvg * f
    | Option.none => 0

/-- The EPS total of `_get_median_adjusted_hybrid_current_year_eps` on
filtered quarter sequences, factor passed in. -/
def mc_median_adjusted_hybrid_eps (qe : ℕ) (a e : List DRec) (f : ℚ) : ℚ :=
  sum4q (mcMedianEpsContrib qe a e f)

/-- Sum of actual EPS over the elapsed quarters with actual data
(the `actual_eps_sum` accumulator of
`MetricsCalculator.get_median_adjusted_hybrid_data`,
src/services/metrics_calculator.py:781-841). -/
def mcActualEpsSum (qe : ℕ) (a : List DRec) : ℚ :=
  sum4q (fun i => if i < qe ∧ i < a.length then actualEpsAt a i else 0)

/-- Sum of actual revenue over the elapsed quarters with actual data
(`actual_revenue_sum` of the same method). -/
def mcActualRevSum (qe : ℕ) (a : List DRec) : ℚ :=
  sum4q (fun i => if i < qe ∧ i < a.length then actualRevAt a i else 0)

/-- Sum of raw estimated EPS over the remaining quarters
(`estimated_eps_sum` of the same method). -/
def mcEstEpsSum (qe : ℕ) (a e : List DRec) : ℚ :=
  sum4q (fun i => if i < qe ∧ i < a.length then 0 else estEpsAt e i)

/-- Sum of raw estimated revenue over the remaining quarters
(`estimated_revenue_sum` of the same method). -/
def mcEstRevSum (qe : ℕ) (a e : List DRec) : ℚ :=
  sum4q (fun i => if i < qe ∧ i < a.length then 0 else estRevAt e i)

/-- The current-year branch (`quarters_elapsed < 4`) of
`MetricsCalculator.get_median_adjusted_hybrid_data`
(src/services/metrics_calculator.py:781-841): EPS is
`actual_eps_sum + estimated_eps_sum * median_gaap_ratio`, revenue is
`actual_revenue_sum + estimated_revenue_sum` with no adjustment. -/
def mc_median_adjusted_current_year (qe : ℕ) (a e : List DRec) (f : ℚ) : ℚ × ℚ :=
  (mcActualEpsSum qe a + mcEstEpsSum qe a e * f,
   mcActualRevSum qe a + mcEstRevSum qe a e)

/-- Analysis helper: the part of the script hybrid totals contributed by the
elapsed-quarter branch (actuals, with the raw-estimate fallback). -/
def hybridActualPartEps (qe : ℕ) (a e : List DRec) : ℚ :=
  sum4q (fun i => if i < qe then (actualOrFallback a e i).1 else 0)

/-- Analysis helper: revenue part of the elapsed-quarter branch. -/
def hybridActualPartRev (qe : ℕ) (a e : List DRec) : ℚ :=
  sum4q (fun i => if i < qe then (actualOrFallback a e i).2 else 0)

/-- Analysis helper: raw estimated EPS summed over the remaining quarters. -/
def hybridEstPartEps (qe : ℕ) (e : List DRec) : ℚ :=
  sum4q (fun i => if i < qe then 0 else estEpsAt e i)

/-- Analysis helper: raw estimated revenue summed over the remaining
quarters. -/
def hybridEstPartRev (qe : ℕ) (e : List DRec) : ℚ :=
  sum4q (fun i => if i < qe then 0 else estRevAt e i)

/-- Analysis helper: the number of remaining quarters that have an estimate
record (each gets the subtractive adjustment in the absolute-difference
variant), as a rational. -/
def adjustedEstCount (qe : ℕ) (e : List DRec) : ℚ :=
  sum4q (fun i => if i < qe then 0 else if i < e.length then 1 else 0)

/-- Unfolding lemma for `_is_positive_number` on a numeric value. -/
theorem is_positive_number_num (q : ℚ) : is_positive_number (.pyNum q) = decide (0 < q) := rfl

/-- C2.  For the current year the script quarter-elapsed calculator follows
the calendar-quarter rule (months 10-12 give 3), future years give 0 and past
years give 4; the service method `_get_quarters_elapsed_in_year` — whose
docstring says it matches the script logic exactly — instead returns the
hardcoded 2 for months 10-12, diverging from the claimed rule. -/
theorem quarters_elapsed_divergence :
    mc_get_quarters_elapsed_in_year 2025 2025 10 = 2
    ∧ get_quarters_elapsed_in_year 2025 2025 10 = 3
    ∧ mc_get_quarters_elapsed_in_year 2025 2025 12 = 2
    ∧ get_quarters_elapsed_in_year 2025 2025 12 = 3
    ∧ get_quarters_elapsed_in_year 2025 2025 3 = 0
    ∧ get_quarters_elapsed_in_year 2025 2025 6 = 1
    ∧ get_quarters_elapsed_in_year 2025 2025 9 = 2
    ∧ get_quarters_elapsed_in_year 2026 2025 10 = 0
    ∧ get_quarters_elapsed_in_year 2024 2025 2 = 4 := by
  decide

/-- C6.  A record dated 2025-01-31 maps to fiscal (2024, Q4) under the
continuation rule of `parse_quarter_from_date` and to calendar (2025, Q1)
under `_date_to_quarter`; the two rules disagree on this input. -/
theorem fiscal_quarter_continuation_vs_calendar :
    parse_quarter_from_date 20250131 = Option.some (2024, 4)
    ∧ fmp_date_to_quarter 20250131 = (2025, 1)
    ∧ Option.some (fmp_date_to_quarter 20250131) ≠ parse_quarter_from_date 20250131 := by
  decide

/-- C1 (counterexample).  With prior = -1 < 0 and current = 1 > 0 the service
growth-rate calculation returns Failure, not a positive Success: the claimed
sign invariant fails on `_calculate_growth_rate`. -/
theorem mc_growth_rate_negative_prior_fails :
    (mc_calculate_growth_rate (.pyNum 1) (.pyNum (-1))).isSuccess = false := by
  norm_num [mc_calculate_growth_rate, is_positive_number, MetricResult.isSuccess]

/-- C1 (amended).  The service growth-rate calculation returns Failure
whenever current or prior is not strictly positive (in particular for every
negative prior and for prior = 0), and for strictly positive inputs returns
Success of `((current - prior) / abs(prior)) * 100` rounded to 2 decimal
places. -/
theorem mc_growth_rate_characterization (c p : ℚ) :
    ((p ≤ 0 ∨ c ≤ 0) → (mc_calculate_growth_rate (.pyNum c) (.pyNum p)).isSuccess = false)
    ∧ (0 < c → 0 < p →
        mc_calculate_growth_rate (.pyNum c) (.pyNum p) =
          .success (pyRound 2 ((c - p) / |p| * 100))) := by
  constructor
  · rintro (hp | hc)
    · by_cases h : 0 < c
      · simp [mc_calculate_growth_rate, is_positive_number, h, not_lt.mpr hp,
          MetricResult.isSuccess]
      · simp [mc_calculate_growth_rate, is_positive_number, h, MetricResult.isSuccess]
    · simp [mc_calculate_growth_rate, is_positive_number, not_lt.mpr hc,
        MetricResult.isSuccess]
  · intro hc hp
    simp [mc_calculate_growth_rate, is_positive_number, hc, hp,
      calculate_growth_percentage, ne_of_gt hp]

/-- C1 (witness for the amended theorem, at current = 2, prior = 1). -/
theorem mc_growth_rate_characterization_witness :
    mc_calculate_growth_rate (.pyNum 2) (.pyNum 1) = .success (pyRound 2 100) := by
  have h := (mc_growth_rate_characterization 2 1).2 (by norm_num) (by norm_num)
  rw [h]
  norm_num

/-- C4 (counterexample).  The script-level `calculate_growth_rate`
(current-year-calcs.py:615-619), cited by the claim, returns the plain
number 0 — a silent zero, not a Failure — when the prior value is 0. -/
theorem script_growth_rate_silent_zero :
    script_calculate_growth_rate 5 0 = 0 := by
  norm_num [script_calculate_growth_rate]

/-- C4 (amended).  The service calculators never let a zero or negative
denominator through: `_calculate_growth_rate(x, 0)` is Failure for every x,
and `_calculate_pe_ratio(p, 0)` and `_calculate_pe_ratio(p, -5)` are Failure
for every price p; the script-level `calculate_growth_rate`, however,
returns the plain number 0 (not a Failure) whenever the prior value is 0. -/
theorem zero_denominator_handling :
    (∀ x : PyVal, (mc_calculate_growth_rate x (.pyNum 0)).isSuccess = false)
    ∧ (∀ p : PyVal, (mc_calculate_pe p (.pyNum 0)).isSuccess = false
        ∧ (mc_calculate_pe p (.pyNum (-5))).isSuccess = false)
    ∧ (∀ x : ℚ, script_calculate_growth_rate x 0 = 0) := by
  refine ⟨fun x => ?_, fun p => ⟨?_, ?_⟩, fun x => ?_⟩
  · cases h : is_positive_number x <;>
      simp [mc_calculate_growth_rate, h, is_positive_number, MetricResult.isSuccess]
  · cases h : is_positive_number p <;>
      norm_num [mc_calculate_pe, h, is_positive_number_num, MetricResult.isSuccess]
  · cases h : is_positive_number p <;>
      norm_num [mc_calculate_pe, h, is_positive_number_num, MetricResult.isSuccess]
  · simp [script_calculate_growth_rate]

/-- C10.  The service growth-rate calculation succeeds exactly when both
inputs are numeric and strictly positive; a None, non-numeric, zero or
negative value on either side yields Failure. -/
theorem mc_growth_rate_success_iff (cv pv : PyVal) :
    (mc_calculate_growth_rate cv pv).isSuccess = true ↔
      ∃ c p : ℚ, cv = .pyNum c ∧ pv = .pyNum p ∧ 0 < c ∧ 0 < p := by
  constructor
  · intro h
    cases cv with
    | pyNum c =>
      cases pv with
      | pyNum p =>
        by_cases hc : 0 < c
        · by_cases hp : 0 < p
          · exact ⟨c, p, rfl, rfl, hc, hp⟩
          · simp [mc_calculate_growth_rate, is_positive_number, hc, hp,
              MetricResult.isSuccess] at h
        · simp [mc_calculate_growth_rate, is_positive_number, hc,
            MetricResult.isSuccess] at h
      | pyNone =>
        simp [mc_calculate_growth_rate, is_positive_number, MetricResult.isSuccess] at h
      | pyNonNum =>
        simp [mc_calculate_growth_rate, is_positive_number, MetricResult.isSuccess] at h
    | pyNone =>
      simp [mc_calculate_growth_rate, is_positive_number, MetricResult.isSuccess] at h
    | pyNonNum =>
      simp [mc_calculate_growth_rate, is_positive_number, MetricResult.isSuccess] at h
  · rintro ⟨c, p, hcv, hpv, hc, hp⟩
    cases hcv
    cases hpv
    simp [mc_calculate_growth_rate, is_positive_number, hc, hp,
      calculate_growth_percentage, hp.ne', MetricResult.isSuccess]

/-- Splitting an if-then-else sum term into its two branch parts. -/
theorem ite_split (c : Prop) [Decidable c] (x y : ℚ) :
    (if c then x else y) = (if c then x else 0) + (if c then 0 else y) := by
  by_cases h : c <;> simp [h]

/-- Revenue of a hybrid-loop iteration, split into branch parts. -/
theorem hybridContrib_snd (qe : ℕ) (a e : List DRec) (i : ℕ) :
    (hybridContrib qe a e i).2 =
      (if i < qe then (actualOrFallback a e i).2 else 0)
        + (if i < qe then 0 else estRevAt e i) := by
  by_cases h : i < qe
  · simp [hybridContrib, h]
  · cases he : e[i]? <;> simp [hybridContrib, h, estRevAt, he]

/-- EPS of a hybrid-loop iteration, split into branch parts. -/
theorem hybridContrib_fst (qe : ℕ) (a e : List DRec) (i : ℕ) :
    (hybridContrib qe a e i).1 =
      (if i < qe then (actualOrFallback a e i).1 else 0)
        + (if i < qe then 0 else estEpsAt e i) := by
  by_cases h : i < qe
  · simp [hybridContrib, h]
  · cases he : e[i]? <;> simp [hybridContrib, h, estEpsAt, he]

/-- The absolute-difference loop never touches revenue: its revenue
contribution is that of the unadjusted hybrid loop. -/
theorem gaapContrib_snd (qe : ℕ) (a e : List DRec) (f : ℚ) (i : ℕ) :
    (gaapContrib qe a e f i).2 = (hybridContrib qe a e i).2 := by
  by_cases h : i < qe
  · simp [gaapContrib, hybridContrib, h]
  · cases he : e[i]? <;> simp [gaapContrib, hybridContrib, h, he]

/-- The ratio loop never touches revenue. -/
theorem ratioContrib_snd (qe : ℕ) (a e : List DRec) (f : ℚ) (i : ℕ) :
    (ratioContrib qe a e f i).2 = (hybridContrib qe a e i).2 := by
  by_cases h : i < qe
  · simp [ratioContrib, hybridContrib, h]
  · cases he : e[i]? <;> simp [ratioContrib, hybridContrib, h, he]

/-- EPS of an absolute-difference loop iteration: the elapsed branch is the
unmodified hybrid contribution, the remaining branch subtracts the factor
once per existing estimate record. -/
theorem gaapContrib_fst (qe : ℕ) (a e : List DRec) (f : ℚ) (i : ℕ) :
    (gaapContrib qe a e f i).1 =
      (if i < qe then (actualOrFallback a e i).1 else 0)
        + ((if i < qe then 0 else estEpsAt e i)
            - (if i < qe then 0 else if i < e.length then (1 : ℚ) else 0) * f) := by
  by_cases h : i < qe
  · simp [gaapContrib, h]
  · cases he : e[i]? with
    | none =>
      have hlen : e.length ≤ i := List.getElem?_eq_none_iff.mp he
      simp [gaapContrib, h, estEpsAt, he, Nat.not_lt.mpr hlen]
    | some q =>
      have hlen : i < e.length := (List.getElem?_eq_some_iff.mp he).1
      simp [gaapContrib, h, estEpsAt, he, hlen]

/-- EPS of a ratio loop iteration: the remaining branch scales the raw
estimate by the factor. -/
theorem ratioContrib_fst (qe : ℕ) (a e : List DRec) (f : ℚ) (i : ℕ) :
    (ratioContrib qe a e f i).1 =
      (if i < qe then (actualOrFallback a e i).1 else 0)
        + f * (if i < qe then 0 else estEpsAt e i) := by
  by_cases h : i < qe
  · simp [ratioContrib, h]
  · cases he : e[i]? <;> simp [ratioContrib, h, estEpsAt, he] <;> ring

/-- EPS of a median loop iteration, split into the actual part and the
factor-scaled raw-estimate part. -/
theorem medianContrib_fst (qe : ℕ) (a e : List DRec) (f : ℚ) (i : ℕ) :
    (medianContrib qe a e f i).1 =
      (if i < qe ∧ i < a.length then actualEpsAt a i else 0)
        + f * (if i < qe ∧ i < a.length then 0 else estEpsAt e i) := by
  by_cases h : i < qe ∧ i < a.length
  · simp [medianContrib, h, actualEpsAt]
  · cases he : e[i]? <;> simp [medianContrib, h, estEpsAt, he] <;> ring

/-- Revenue of a median loop iteration, split into unadjusted parts. -/
theorem medianContrib_snd (qe : ℕ) (a e : List DRec) (f : ℚ) (i : ℕ) :
    (medianContrib qe a e f i).2 =
      (if i < qe ∧ i < a.length then actualRevAt a i else 0)
        + (if i < qe ∧ i < a.length then 0 else estRevAt e i) := by
  by_cases h : i < qe ∧ i < a.length
  · simp [medianContrib, h, actualRevAt]
  · cases he : e[i]? <;> simp [medianContrib, h, estRevAt, he]

/-- EPS-only median loop iteration split, service variant. -/
theorem mcMedianEpsContrib_eq (qe : ℕ) (a e : List DRec) (f : ℚ) (i : ℕ) :
    mcMedianEpsContrib qe a e f i =
      (if i < qe ∧ i < a.length then actualEpsAt a i else 0)
        + f * (if i < qe ∧ i < a.length then 0 else estEpsAt e i) := by
  by_cases h : i < qe ∧ i < a.length
  · simp [mcMedianEpsContrib, h]
  · cases he : e[i]? <;> simp [mcMedianEpsContrib, h, estEpsAt, he] <;> ring

/-- C7.  In all three GAAP-adjustment variants only the EPS of estimated
quarters is modified by the reconciliation factor: the revenue totals of the
absolute-difference and ratio loops coincide with the unadjusted hybrid
revenue (also at the end-to-end function level), the median loop's revenue is
the plain sum of its actual and estimated revenue parts, and each variant's
EPS total decomposes into a factor-independent actual part plus the
factor-adjusted estimate part (subtraction once per estimated quarter for
the absolute-difference variant, multiplication for the ratio and median
variants). -/
theorem gaap_adjustment_frame (qe : ℕ) (a e ad ed : List DRec) (f : ℚ) (t : ℕ) :
    (get_gaap_adjusted_hybrid_quarters qe a e f).2 = (get_hybrid_current_year_quarters qe a e).2
    ∧ (get_ratio_adjusted_hybrid_quarters qe a e f).2 = (get_hybrid_current_year_quarters qe a e).2
    ∧ (get_hybrid_current_year_quarters qe a e).2 = hybridActualPartRev qe a e + hybridEstPartRev qe e
    ∧ (get_gaap_adjusted_hybrid_quarters qe a e f).1
        = hybridActualPartEps qe a e + (hybridEstPartEps qe e - adjustedEstCount qe e * f)
    ∧ (get_ratio_adjusted_hybrid_quarters qe a e f).1
        = hybridActualPartEps qe a e + f * hybridEstPartEps qe e
    ∧ (get_median_adjusted_hybrid_quarters qe a e f).1
        = mcActualEpsSum qe a + f * mcEstEpsSum qe a e
    ∧ (get_median_adjusted_hybrid_quarters qe a e f).2
        = mcActualRevSum qe a + mcEstRevSum qe a e
    ∧ mc_median_adjusted_hybrid_eps qe a e f = mcActualEpsSum qe a + f * mcEstEpsSum qe a e
    ∧ mc_median_adjusted_current_year qe a e f
        = (mcActualEpsSum qe a + mcEstEpsSum qe a e * f, mcActualRevSum qe a + mcEstRevSum qe a e)
    ∧ (get_gaap_adjusted_hybrid_data qe ad ed t).2 = (get_hybrid_current_year_data qe ad ed t).2
    ∧ (get_ratio_adjusted_hybrid_data qe ad ed t).2 = (get_hybrid_current_year_data qe ad ed t).2 := by
  have hgaap2 : ∀ (a e : List DRec) (g : ℚ),
      (get_gaap_adjusted_hybrid_quarters qe a e g).2 = (get_hybrid_current_year_quarters qe a e).2 := by
    intro a e g
    simp [get_gaap_adjusted_hybrid_quarters, get_hybrid_current_year_quarters, sum4,
      Prod.snd_add, gaapContrib_snd]
  have hrat2 : ∀ (a e : List DRec) (g : ℚ),
      (get_ratio_adjusted_hybrid_quarters qe a e g).2 = (get_hybrid_current_year_quarters qe a e).2 := by
    intro a e g
    simp [get_ratio_adjusted_hybrid_quarters, get_hybrid_current_year_quarters, sum4,
      Prod.snd_add, ratioContrib_snd]
  refine ⟨hgaap2 a e f, hrat2 a e f, ?_, ?_, ?_, ?_, ?_, ?_, rfl, ?_, ?_⟩
  · simp only [get_hybrid_current_year_quarters, sum4, Prod.snd_add, hybridContrib_snd,
      hybridActualPartRev, hybridEstPartRev, sum4q]
    ring
  · simp only [get_gaap_adjusted_hybrid_quarters, sum4, Prod.fst_add, gaapContrib_fst,
      hybridActualPartEps, hybridEstPartEps, adjustedEstCount, sum4q]
    ring
  · simp only [get_ratio_adjusted_hybrid_quarters, sum4, Prod.fst_add, ratioContrib_fst,
      hybridActualPartEps, hybridEstPartEps, sum4q]
    ring
  · simp only [get_median_adjusted_hybrid_quarters, sum4, Prod.fst_add, medianContrib_fst,
      mcActualEpsSum, mcEstEpsSum, sum4q]
    ring
  · simp only [get_median_adjusted_hybrid_quarters, sum4, Prod.snd_add, medianContrib_snd,
      mcActualRevSum, mcEstRevSum, sum4q]
    ring
  · simp only [mc_median_adjusted_hybrid_eps, sum4q, mcMedianEpsContrib_eq,
      mcActualEpsSum, mcEstEpsSum]
    ring
  · simp only [get_gaap_adjusted_hybrid_data, get_hybrid_current_year_data]
    exact hgaap2 _ _ _
  · simp only [get_ratio_adjusted_hybrid_data, get_hybrid_current_year_data]
    exact hrat2 _ _ _

/-- A list of length four is a four-element literal. -/
theorem list_len4 {α : Type u_1} {l : List α} (h : l.length = 4) :
    ∃ x0 x1 x2 x3, l = [x0, x1, x2, x3] := by
  rcases l with _ | ⟨x0, l⟩
  · simp at h
  rcases l with _ | ⟨x1, l⟩
  · simp at h
  rcases l with _ | ⟨x2, l⟩
  · simp at h
  rcases l with _ | ⟨x3, l⟩
  · simp at h
  rcases l with _ | ⟨x4, l⟩
  · exact ⟨x0, x1, x2, x3, rfl⟩
  · simp at h

/-- C5.  With 4 actual and 4 estimate quarter records, the median-adjusted
hybrid EPS with quarters_elapsed = 2 is the sum of the first two actual EPS
values and the factor-adjusted third and fourth estimates, and with
quarters_elapsed = 4 it is the plain sum of the four actual EPS values,
whatever the estimate records contain; the unadjusted script hybrid behaves
the same way with raw estimates. -/
theorem hybrid_aggregation_boundary (a e : List DRec) (f : ℚ)
    (ha : a.length = 4) (he : e.length = 4) :
    mc_median_adjusted_hybrid_eps 2 a e f
        = actualEpsAt a 0 + actualEpsAt a 1 + estEpsAt e 2 * f + estEpsAt e 3 * f
    ∧ mc_median_adjusted_hybrid_eps 4 a e f
        = actualEpsAt a 0 + actualEpsAt a 1 + actualEpsAt a 2 + actualEpsAt a 3
    ∧ (get_hybrid_current_year_quarters 2 a e).1
        = actualEpsAt a 0 + actualEpsAt a 1 + estEpsAt e 2 + estEpsAt e 3
    ∧ (get_hybrid_current_year_quarters 4 a e).1
        = actualEpsAt a 0 + actualEpsAt a 1 + actualEpsAt a 2 + actualEpsAt a 3 := by
  obtain ⟨a0, a1, a2, a3, rfl⟩ := list_len4 ha
  obtain ⟨e0, e1, e2, e3, rfl⟩ := list_len4 he
  refine ⟨?_, ?_, ?_, ?_⟩ <;>
    norm_num [mc_median_adjusted_hybrid_eps, sum4q, mcMedianEpsContrib,
      get_hybrid_current_year_quarters, sum4, hybridContrib, actualOrFallback,
      actualEpsAt, estEpsAt, Prod.fst_add] <;> ring

/-- Four actual quarters for the C5 witness (EPS 1.15, 1.25, 9.99, 9.99). -/
def c5Actuals : List DRec :=
  [{ date := 20250331, eps := Option.some (23/20) },
   { date := 20250630, eps := Option.some (5/4) },
   { date := 20250930, eps := Option.some (999/100) },
   { date := 20251231, eps := Option.some (999/100) }]

/-- Four estimate quarters for the C5 witness (EPS 9.99, 9.99, 1.30, 1.35). -/
def c5Estimates : List DRec :=
  [{ date := 20250331, estimatedEpsAvg := Option.some (999/100) },
   { date := 20250630, estimatedEpsAvg := Option.some (999/100) },
   { date := 20250930, estimatedEpsAvg := Option.some (13/10) },
   { date := 20251231, estimatedEpsAvg := Option.some (27/20) }]

/-- C5 (witness): at factor 1 and quarters_elapsed 2 the hybrid total is
1.15 + 1.25 + 1.30 + 1.35 = 5.05, and at quarters_elapsed 4 the estimates
are ignored. -/
theorem hybrid_aggregation_boundary_witness :
    mc_median_adjusted_hybrid_eps 2 c5Actuals c5Estimates 1 = 101/20
    ∧ mc_median_adjusted_hybrid_eps 4 c5Actuals c5Estimates 1
        = 23/20 + 5/4 + 999/100 + 999/100 := by
  have h := hybrid_aggregation_boundary c5Actuals c5Estimates 1
    (by norm_num [c5Actuals]) (by norm_num [c5Estimates])
  refine ⟨?_, ?_⟩
  · rw [h.1]
    norm_num [c5Actuals, c5Estimates, actualEpsAt, estEpsAt, getNum]
  · rw [h.2.1]
    norm_num [c5Actuals, actualEpsAt, getNum]

/-- Fusing a filterMap with a pair-filter-map pipeline once the two agree
pointwise. -/
theorem filterMap_eq_map_filter {α β γ : Type u_1} (f : α → Option γ) (g : α → Option β)
    (P : β → Bool) (M : β → γ)
    (h : ∀ x, f x = (g x).bind (fun y => if P y then Option.some (M y) else Option.none))
    (l : List α) :
    l.filterMap f = ((l.filterMap g).filter P).map M := by
  induction l with
  | nil => simp
  | cons a l ih =>
    simp only [List.filterMap_cons]
    cases hg : g a with
    | none => simp [h a, hg, ih]
    | some y =>
      by_cases hp : P y
      · simp [h a, hg, hp, ih]
      · simp [h a, hg, hp, ih]

/-- The accumulated absolute differences coincide with the spec's
pair-then-filter-then-map description of the absolute-difference variant. -/
theorem pairedDiffs_eq_spec (actual estimates : List DRec) :
    pairedDiffs actual estimates
      = ((specPairs actual estimates).filter
          (fun p => decide (p.1 ≠ 0 ∧ p.2 ≠ 0))).map (fun p => |p.1 - p.2|) := by
  unfold pairedDiffs specPairs
  refine filterMap_eq_map_filter _ _ _ _ (fun q => ?_) (latest4 actual)
  cases hf : findEstimateFor estimates q.date with
  | none => simp
  | some m =>
    by_cases h1 : getNum q.eps ≠ 0
    · by_cases h2 : getNum m.estimatedEpsAvg ≠ 0
      · simp [h1, h2, abs_sub_comm]
      · simp [h1, h2]
    · simp [h1]

/-- The accumulated EPS ratios coincide with the spec's
pair-then-filter-then-map description of the ratio variants. -/
theorem pairedRatios_eq_spec (actual estimates : List DRec) :
    pairedRatios actual estimates
      = ((specPairs actual estimates).filter
          (fun p => decide (0 < p.1 ∧ 0 < p.2))).map (fun p => p.1 / p.2) := by
  unfold pairedRatios specPairs
  refine filterMap_eq_map_filter _ _ _ _ (fun q => ?_) (latest4 actual)
  cases hf : findEstimateFor estimates q.date with
  | none => simp
  | some m =>
    by_cases h1 : 0 < getNum q.eps
    · by_cases h2 : 0 < getNum m.estimatedEpsAvg
      · simp [h1, h2]
      · simp [h1, h2]
    · simp [h1]

/-- C9.  The absolute-difference reconciliation factor is the mean of
`abs(actual_eps - estimated_eps)` over the exact-date-matched pairs of the 4
most recent actual quarters whose two EPS values are both non-zero (0.0 when
no valid pairs exist), and the adjusted hybrid loop applies it to each
remaining estimated quarter by subtraction. -/
theorem abs_diff_reconciliation (a e : List DRec) (qe i : ℕ) (f : ℚ)
    (hqe : qe ≤ i) (hlen : i < e.length) :
    calculate_gaap_estimate_difference a e = absDiffFactorSpec a e
    ∧ (pairedDiffs a e = [] → calculate_gaap_estimate_difference a e = 0)
    ∧ (gaapContrib qe a e f i).1 = estEpsAt e i - f := by
  refine ⟨?_, ?_, ?_⟩
  · simp only [calculate_gaap_estimate_difference, absDiffFactorSpec, pairedDiffs_eq_spec]
  · intro h
    simp [calculate_gaap_estimate_difference, h]
  · have hnot : ¬ i < qe := Nat.not_lt.mpr hqe
    obtain ⟨x, he⟩ : ∃ x, e[i]? = Option.some x := by
      rw [List.getElem?_eq_getElem hlen]
      exact ⟨_, rfl⟩
    simp [gaapContrib, hnot, estEpsAt, he]

/-- C9 (witness): at quarters_elapsed 2, quarter index 2 of the
absolute-difference loop contributes the raw estimate minus the factor. -/
theorem abs_diff_reconciliation_witness :
    (gaapContrib 2 c5Actuals c5Estimates (1/10) 2).1 = 13/10 - 1/10 := by
  have h := (abs_diff_reconciliation c5Actuals c5Estimates 2 2 (1/10)
    (by norm_num) (by norm_num [c5Estimates])).2.2
  rw [h]
  norm_num [c5Estimates, estEpsAt, getNum]

/-- Four actual quarters matching the C3 test vector: EPS 1.0, 1.2, 0.8, 1.1
on the four most recent report dates (listed out of order to exercise the
descending sort). -/
def c3Actuals : List DRec :=
  [{ date := 20240930, eps := Option.some (4/5) },
   { date := 20250331, eps := Option.some 1 },
   { date := 20240630, eps := Option.some (11/10) },
   { date := 20241231, eps := Option.some (6/5) }]

/-- Matching estimate records: estimated EPS 0.9, 1.0, 1.0, 1.05 on the same
report dates. -/
def c3Estimates : List DRec :=
  [{ date := 20250331, estimatedEpsAvg := Option.some (9/10) },
   { date := 20241231, estimatedEpsAvg := Option.some 1 },
   { date := 20240930, estimatedEpsAvg := Option.some 1 },
   { date := 20240630, estimatedEpsAvg := Option.some (21/20) }]

/-- C3.  The median-ratio factor equals the spec's description (pair the 4
most recent actual quarters with their exact-date estimates, keep the pairs
with both EPS values strictly positive, take actual/estimated, and return the
standard median), defaults to 1.0 when no valid ratios exist, and on the
pairs (1.0, 0.9), (1.2, 1.0), (0.8, 1.0), (1.1, 1.05) evaluates to
68/63 = (1.0476... + 1.1111...) / 2, within 1/1000 of 1.079. -/
theorem median_ratio_reconciliation :
    (∀ a e : List DRec,
        calculate_gaap_estimate_median_factor a e = medianRatioFactorSpec a e)
    ∧ (∀ a e : List DRec, pairedRatios a e = [] →
        calculate_gaap_estimate_median_factor a e = 1)
    ∧ calculate_gaap_estimate_median_factor c3Actuals c3Estimates = 68/63
    ∧ |calculate_gaap_estimate_median_factor c3Actuals c3Estimates - 1079/1000|
        < 1/1000 := by
  have hr : pairedRatios c3Actuals c3Estimates = [10/9, 6/5, 4/5, 22/21] := by
    norm_num [pairedRatios, latest4, c3Actuals, c3Estimates, sortByDateDesc,
      List.insertionSort, List.orderedInsert, byDateDesc, findEstimateFor, List.find?,
      List.filterMap_cons, getNum]
  have hs : sortAsc [10/9, 6/5, 4/5, 22/21] = [4/5, 22/21, 10/9, 6/5] := by
    norm_num [sortAsc, List.insertionSort, List.orderedInsert]
  have hval : calculate_gaap_estimate_median_factor c3Actuals c3Estimates = 68/63 := by
    simp only [calculate_gaap_estimate_median_factor, hr, hs]
    simp
    norm_num
  refine ⟨fun a e => ?_, fun a e h => ?_, hval, ?_⟩
  · simp only [calculate_gaap_estimate_median_factor, medianRatioFactorSpec,
      pairedRatios_eq_spec]
  · simp [calculate_gaap_estimate_median_factor, h]
  · rw [hval]
    have hd : (68 : ℚ)/63 - 1079/1000 = 23/63000 := by norm_num
    rw [hd, abs_of_pos (by norm_num)]
    norm_num

/-- C3 (witness): with no records at all there are no valid pairs and the
factor defaults to 1. -/
theorem median_ratio_reconciliation_witness :
    calculate_gaap_estimate_median_factor [] [] = 1 := by
  exact median_ratio_reconciliation.2.1 [] []
    (by simp [pairedRatios, latest4, sortByDateDesc, List.insertionSort])

/-- Membership is preserved by the descending date sort. -/
theorem mem_sortByDateDesc {r : DRec} {l : List DRec} : r ∈ sortByDateDesc l ↔ r ∈ l :=
  List.mem_insertionSort _

/-- Membership is preserved by the ascending date sort. -/
theorem mem_sortByDateAsc {r : DRec} {l : List DRec} : r ∈ sortByDateAsc l ↔ r ∈ l :=
  List.mem_insertionSort _

/-- The head of the descending sort is a record of the list. -/
theorem head?_sortByDateDesc_mem {l : List DRec} {r : DRec}
    (h : (sortByDateDesc l).head? = Option.some r) : r ∈ l := by
  cases hl : sortByDateDesc l with
  | nil => simp [hl] at h
  | cons x t =>
    rw [hl] at h
    simp only [List.head?_cons, Option.some.injEq] at h
    apply mem_sortByDateDesc.mp
    rw [hl, ← h]
    exact List.mem_cons_self x t

/-- The head of the descending sort has the most recent date of the list. -/
theorem head?_sortByDateDesc_ge {l : List DRec} {r : DRec}
    (h : (sortByDateDesc l).head? = Option.some r) : ∀ s ∈ l, s.date ≤ r.date := by
  intro s hs
  have hsort : List.Sorted byDateDesc (sortByDateDesc l) :=
    List.sorted_insertionSort byDateDesc l
  have hmem : s ∈ sortByDateDesc l := mem_sortByDateDesc.mpr hs
  cases hl : sortByDateDesc l with
  | nil => simp [hl] at h
  | cons x t =>
    rw [hl] at h hsort hmem
    simp only [List.head?_cons, Option.some.injEq] at h
    subst h
    rcases List.mem_cons.mp hmem with hx | ht
    · exact hx ▸ le_refl _
    · exact (List.sorted_cons.mp hsort).1 s ht

/-- The head of a non-empty descending sort exists. -/
theorem head?_sortByDateDesc_isSome {l : List DRec} (h : l ≠ []) :
    ∃ r, (sortByDateDesc l).head? = Option.some r := by
  cases hl : sortByDateDesc l with
  | nil =>
    have : l.length = 0 := by
      have := List.length_insertionSort byDateDesc l
      rw [sortByDateDesc] at hl
      rw [hl] at this
      simpa using this.symm
    exact absurd (List.length_eq_zero.mp this) h
  | cons x t => exact ⟨x, by simp⟩

/-- A picked record belongs to the data and maps to its bucket. -/
theorem pickQuarter_mem {data : List DRec} {target q : ℕ} {r : DRec}
    (h : pickQuarter data target q = Option.some r) :
    r ∈ data ∧ fiscalQuarterOf target r = Option.some q := by
  have hm := head?_sortByDateDesc_mem h
  have := List.mem_filter.mp hm
  exact ⟨this.1, by simpa using this.2⟩

/-- A picked record is at least as recent as every record of its bucket. -/
theorem pickQuarter_ge {data : List DRec} {target q : ℕ} {r : DRec}
    (h : pickQuarter data target q = Option.some r) :
    ∀ s ∈ data, fiscalQuarterOf target s = Option.some q → s.date ≤ r.date := by
  intro s hs hq
  exact head?_sortByDateDesc_ge h s (List.mem_filter.mpr ⟨hs, by simpa using hq⟩)

/-- A non-empty bucket yields a pick. -/
theorem pickQuarter_isSome {data : List DRec} {target q : ℕ} {s : DRec}
    (hs : s ∈ data) (hq : fiscalQuarterOf target s = Option.some q) :
    ∃ r, pickQuarter data target q = Option.some r := by
  apply head?_sortByDateDesc_isSome
  intro hnil
  have : s ∈ data.filter (fun r => decide (fiscalQuarterOf target r = Option.some q)) :=
    List.mem_filter.mpr ⟨hs, by simpa using hq⟩
  rw [hnil] at this
  simp at this

/-- Membership in the selector output is exactly being some bucket's pick. -/
theorem mem_filter_data_by_fiscal_year {data : List DRec} {target : ℕ} {r : DRec} :
    r ∈ filter_data_by_fiscal_year data target ↔
      ∃ q ∈ ([1, 2, 3, 4] : List ℕ), pickQuarter data target q = Option.some r := by
  rw [filter_data_by_fiscal_year, mem_sortByDateAsc, List.mem_filterMap]

/-- A record only maps to quarters 1 to 4. -/
theorem fiscalQuarterOf_range {target q : ℕ} {r : DRec}
    (h : fiscalQuarterOf target r = Option.some q) : q ∈ ([1, 2, 3, 4] : List ℕ) := by
  simp only [fiscalQuarterOf] at h
  split_ifs at h <;> simp_all

/-- Picking at most one record per distinct bucket key yields pairwise
distinct bucket values. -/
theorem nodup_map_filterMap (qs : List ℕ) (hq : qs.Nodup) (pick : ℕ → Option DRec)
    (f : DRec → Option ℕ) (hpf : ∀ q r, pick q = Option.some r → f r = Option.some q) :
    ((qs.filterMap pick).map f).Nodup := by
  induction qs with
  | nil => simp
  | cons q qs ih =>
    have hq' := List.nodup_cons.mp hq
    simp only [List.filterMap_cons]
    cases hp : pick q with
    | none => exact ih hq'.2
    | some r =>
      simp only [List.map_cons, List.nodup_cons]
      refine ⟨?_, ih hq'.2⟩
      intro hmem
      rcases List.mem_map.mp hmem with ⟨r', hr', hfr⟩
      rcases List.mem_filterMap.mp hr' with ⟨q', hq'', hpq'⟩
      have h1 : f r = Option.some q := hpf q r hp
      have h2 : f r' = Option.some q' := hpf q' r' hpq'
      rw [h2, h1] at hfr
      have : q' = q := by simpa using hfr
      exact hq'.1 (this ▸ hq'')

/-- C8.  For every target fiscal year and record list, the selector returns
at most 4 records, all drawn from the input and each mapped to some quarter
bucket, in chronological order, with pairwise distinct buckets (at most one
record per quarter, Jan-Mar continuation records included in Q4 by the
mapping), each selected record at least as recent as every input record of
its bucket, and every non-empty bucket represented (no quarter synthesized,
none dropped). -/
theorem fiscal_year_selector_sound (data : List DRec) (target : ℕ) :
    (filter_data_by_fiscal_year data target).length ≤ 4
    ∧ (∀ r ∈ filter_data_by_fiscal_year data target, r ∈ data)
    ∧ (∀ r ∈ filter_data_by_fiscal_year data target, (fiscalQuarterOf target r).isSome = true)
    ∧ List.Sorted byDateAsc (filter_data_by_fiscal_year data target)
    ∧ ((filter_data_by_fiscal_year data target).map (fiscalQuarterOf target)).Nodup
    ∧ (∀ r ∈ filter_data_by_fiscal_year data target, ∀ s ∈ data,
        fiscalQuarterOf target s = fiscalQuarterOf target r → s.date ≤ r.date)
    ∧ (∀ s ∈ data, ∀ q : ℕ, fiscalQuarterOf target s = Option.some q →
        ∃ r ∈ filter_data_by_fiscal_year data target,
          fiscalQuarterOf target r = Option.some q) := by
  refine ⟨?_, ?_, ?_, ?_, ?_, ?_, ?_⟩
  · simp only [filter_data_by_fiscal_year, sortByDateAsc]
    rw [List.length_insertionSort]
    exact le_trans (List.length_filterMap_le _ _) (by simp)
  · intro r hr
    rcases mem_filter_data_by_fiscal_year.mp hr with ⟨q, _, hp⟩
    exact (pickQuarter_mem hp).1
  · intro r hr
    rcases mem_filter_data_by_fiscal_year.mp hr with ⟨q, _, hp⟩
    simp [(pickQuarter_mem hp).2]
  · simp only [filter_data_by_fiscal_year, sortByDateAsc]
    exact List.sorted_insertionSort _ _
  · have hperm : List.Perm (filter_data_by_fiscal_year data target)
        (([1, 2, 3, 4] : List ℕ).filterMap (pickQuarter data target)) := by
      simp only [filter_data_by_fiscal_year, sortByDateAsc]
      exact List.perm_insertionSort _ _
    have hnd := nodup_map_filterMap [1, 2, 3, 4] (by simp) (pickQuarter data target)
      (fiscalQuarterOf target) (fun q r hp => (pickQuarter_mem hp).2)
    exact ((hperm.map (fiscalQuarterOf target)).nodup_iff).mpr hnd
  · intro r hr s hs heq
    rcases mem_filter_data_by_fiscal_year.mp hr with ⟨q, _, hp⟩
    rw [(pickQuarter_mem hp).2] at heq
    exact pickQuarter_ge hp s hs heq
  · intro s hs q hq
    obtain ⟨r, hp⟩ := pickQuarter_isSome hs hq
    exact ⟨r, mem_filter_data_by_fiscal_year.mpr ⟨q, fiscalQuarterOf_range hq, hp⟩,
      (pickQuarter_mem hp).2⟩

/-- Three records for the C8 witness: two Q2 filings (2025-07-10 re-filing a
2025-07-01 statement) and one Q1 filing. -/
def c8Data : List DRec :=
  [{ date := 20250710 }, { date := 20250701 }, { date := 20250215 }]

/-- C8 (witness): for the concrete data the selector keeps the 2025-07-10
re-filing for Q2, and the displaced duplicate 2025-07-01 is indeed older. -/
theorem fiscal_year_selector_sound_witness :
    ({ date := 20250701 } : DRec).date ≤ ({ date := 20250710 } : DRec).date := by
  have h := (fiscal_year_selector_sound c8Data 2025).2.2.2.2.2.1
  refine h { date := 20250710 } ?_ { date := 20250701 } ?_ ?_
  · apply mem_filter_data_by_fiscal_year.mpr
    refine ⟨2, by simp, ?_⟩
    norm_num [pickQuarter, c8Data, fiscalQuarterOf, yearOf, monthOf, sortByDateDesc,
      List.insertionSort, List.orderedInsert, byDateDesc]
  · simp [c8Data]
  · norm_num [fiscalQuarterOf, yearOf, monthOf]
